import Mathlib

/-!
Shallow embedding of the order/auth core of the multishop backend
(`app/serializers.py`): order creation and pricing
(`UserOrderCreateSerializer.create`, `OrderItemCreateSerializer.create`),
order cancellation (`UserOrderCancelSerializer.update`), the catalog
discount computation (`ProductSerializer.get_discount`,
`ProductDetailSerializer.get_discount`), the purchase check
(`ProductDetailSerializer.get_is_buy`) and the refresh-token validation
(`RefreshTokenSerializer.validate_refresh_token`).

The persistent store is embedded as an explicit `DB` record threaded
through the operations; each endpoint is a pure function from the current
store and the request to the response together with the next store.
Prices are exact rationals; `Option`/`Except` model Python exceptions.
-/

namespace Multishop

/-- Modelled from the spec: `app/utils/constants.py` is not under `src/`.
The `ORDER_STATUS` enumeration `{WAITING_CONFIRM, SUCCESS, CANCEL}`. -/
inductive OrderStatus
  | WAITING_CONFIRM
  | SUCCESS
  | CANCEL
deriving DecidableEq

/-- Modelled from the spec: the `TOKEN_TYPE` enumeration `{ACCESS, REFRESH}`
from `app/utils/constants.py` (not under `src/`). -/
inductive TokenType
  | ACCESS
  | REFRESH
deriving DecidableEq

/-- Modelled from the spec: `SHIPPING_FEE` is a fixed configured constant
(`app/utils/constants.py` is not under `src/`); the spec's worked example
uses 20 and no claim depends on the particular value. -/
def SHIPPING_FEE : ℚ := 20

/-- Modelled from the spec: the `Product` row (`app/models`, not under
`src/`) restricted to the fields the claims use: `price` (list price) and
`sale_price` (effective price). -/
structure Product where
  id : ℕ
  price : ℚ
  sale_price : ℚ
deriving DecidableEq

/-- Modelled from the spec: the `Order` row (`app/models`, not under
`src/`) restricted to the fields the claims use. `payment` and
`created_at` are omitted (the `created_at` age computation in
`UserOrderCancelSerializer.update` is dead code: its guard is commented
out in the source). -/
structure Order where
  id : ℕ
  user : ℕ
  status : OrderStatus
  sum_price : ℚ
  shipping_fee : ℚ
  total_cost : ℚ
deriving DecidableEq

/-- Modelled from the spec: the `OrderItem` row (`app/models`, not under
`src/`): owning order, referenced product, `count`, and the captured
`order_price`. The surrogate primary key is omitted (no claim uses it). -/
structure OrderItem where
  order : ℕ
  product : ℕ
  count : ℕ
  order_price : ℚ
deriving DecidableEq

/-- The persistent store visible to the order workflow. -/
structure DB where
  products : List Product
  orders : List Order
  order_items : List OrderItem
deriving DecidableEq

/-- One line item of an order-creation request, as accepted by
`OrderItemCreateSerializer` (`fields = __all__` with `order_price` and
`order` not required): the client may submit an `order_price`, which
`OrderItemCreateSerializer.create` overwrites. -/
structure ReqItem where
  product : ℕ
  count : ℕ
  order_price : Option ℚ
deriving DecidableEq

/-- An order-creation request, as accepted by `UserOrderCreateSerializer`
(`fields = __all__` on `Order` plus the nested `items`): every editable
`Order` column, `status` and the aggregate fields included, is writable,
each submitted as `some` value or omitted as `none`. -/
structure OrderRequest where
  user : ℕ
  status : Option OrderStatus
  sum_price : Option ℚ
  shipping_fee : Option ℚ
  total_cost : Option ℚ
  items : List ReqItem
deriving DecidableEq

/-- Point lookup of a product by primary key (the resolution performed by
the serializer's `product` primary-key related field). -/
def findProduct (db : DB) (pid : ℕ) : Option Product :=
  db.products.find? (fun p => p.id == pid)

/-- The referenced product's current `sale_price`; defaults to 0 when the
product does not resolve (validation rules that case out before use). -/
def saleOf (db : DB) (pid : ℕ) : ℚ :=
  ((findProduct db pid).map Product.sale_price).getD 0

/-- Validation of one line item, run by `is_valid` on
`OrderItemCreateSerializer`: the referenced product must exist.
Modelled from the spec: `count` is a positive integer (`app/models` is
not under `src/`, the spec's data model states `count` (quantity,
positive integer)). -/
def validItem (db : DB) (it : ReqItem) : Bool :=
  (findProduct db it.product).isSome && decide (0 < it.count)

/-- The framework-level rejection raised by
`is_valid(raise_exception=True)` (field messages abstracted away). -/
inductive CreateError
  | validationError
deriving DecidableEq

/-- A fresh primary key for the order header created by
`Order.objects.create`. -/
def nextOrderId (db : DB) : ℕ :=
  db.orders.foldr (fun o acc => max (o.id + 1) acc) 0

/-- The `Order` row persisted by `Order.objects.create(**validated_data)`
at `serializers.py:425`: every column comes straight from the validated
request, the omitted ones falling back to the model defaults (modelled
from the spec: `status` defaults to `WAITING_CONFIRM`, the aggregate
columns to 0; `app/models` is not under `src/`). -/
def orderHeader (db : DB) (req : OrderRequest) : Order :=
  { id := nextOrderId db
    user := req.user
    status := req.status.getD OrderStatus.WAITING_CONFIRM
    sum_price := req.sum_price.getD 0
    shipping_fee := req.shipping_fee.getD 0
    total_cost := req.total_cost.getD 0 }

/-- The store right after `Order.objects.create` has persisted the header
and before any item is written. -/
def dbAfterHeader (db : DB) (req : OrderRequest) : DB :=
  { db with orders := db.orders ++ [orderHeader db req] }

/-- `sum_price = sum([e.product.sale_price * e.count for e in data_items])`
(`serializers.py:426`), priced from the current product rows. -/
def computedSum (db : DB) (items : List ReqItem) : ℚ :=
  (items.map (fun e => saleOf db e.product * (e.count : ℚ))).sum

/-- The rows written by `OrderItemCreateSerializer.create` for each line
item: `order_price` is overwritten with `data.product.sale_price`
(`serializers.py:401`), so any client-submitted `order_price` is
discarded. -/
def newOrderItems (db : DB) (oid : ℕ) (items : List ReqItem) : List OrderItem :=
  items.map (fun e =>
    { order := oid
      product := e.product
      count := e.count
      order_price := saleOf db e.product })

/-- The header as finally saved by `instance.save()`
(`serializers.py:427-429,436`): the computed `sum_price`, the constant
`shipping_fee` and `total_cost = sum_price + SHIPPING_FEE` overwrite
whatever `Order.objects.create` stored. -/
def finalOrder (db : DB) (req : OrderRequest) : Order :=
  { orderHeader db req with
    sum_price := computedSum db req.items
    shipping_fee := SHIPPING_FEE
    total_cost := computedSum db req.items + SHIPPING_FEE }

/-- The order-creation endpoint: the framework first runs `is_valid` on
`UserOrderCreateSerializer`, which validates every nested line item
before `create` is entered; only then does `create` persist the header,
re-validate the (mutated) items through a second
`OrderItemCreateSerializer(..., many=True)` at `serializers.py:433-434`,
persist the item rows, and finally save the recomputed header. A failure
of the inner re-validation would strand the already persisted header
(the source wraps nothing in a transaction), which is why that branch
returns the intermediate store. -/
def createOrder (db : DB) (req : OrderRequest) : Except CreateError Order × DB :=
  if req.items.all (fun it => validItem db it) then
    if req.items.all (fun it => validItem (dbAfterHeader db req) it) then
      (Except.ok (finalOrder db req),
        { products := db.products
          orders := db.orders ++ [finalOrder db req]
          order_items :=
            db.order_items ++
              newOrderItems (dbAfterHeader db req) (orderHeader db req).id req.items })
    else (Except.error CreateError.validationError, dbAfterHeader db req)
  else (Except.error CreateError.validationError, db)

/-- The failures of `UserOrderCancelSerializer.update`: the
`ClientException` raised at `serializers.py:471` when the order is no
longer `WAITING_CONFIRM`, and the ORM lookup failure when the order id
does not resolve. -/
inductive CancelError
  | clientException
  | doesNotExist
deriving DecidableEq

/-- The cancellation endpoint (`UserOrderCancelSerializer.update`,
`serializers.py:464-474`): raise `ClientException` unless the current
status is `WAITING_CONFIRM`, otherwise set the status to `CANCEL` and
save the row. -/
def cancelOrder (db : DB) (oid : ℕ) : Except CancelError Order × DB :=
  match db.orders.find? (fun o => o.id == oid) with
  | none => (Except.error CancelError.doesNotExist, db)
  | some o =>
    if o.status = OrderStatus.WAITING_CONFIRM then
      (Except.ok { o with status := OrderStatus.CANCEL },
        { db with
          orders := db.orders.map (fun x =>
            if x.id == oid then { o with status := OrderStatus.CANCEL } else x) })
    else (Except.error CancelError.clientException, db)

/-- A decoded token payload: the `type` discriminator and the subject
`id`, as read by `validate_refresh_token`. -/
structure TokenPayload where
  type : TokenType
  id : ℕ
deriving DecidableEq

/-- Modelled from the spec: `jwt_util.extract_payload` (`app/utils`, not
under `src/`) verifies the signature and expiry of the presented string;
a token is represented here by its decode outcome — one of the three
`jwt` failures caught at `serializers.py:44-51`, or the payload. -/
inductive DecodeResult
  | expiredSignature
  | decodeFailure
  | invalidToken
  | ok (payload : TokenPayload)
deriving DecidableEq

/-- The `AuthenticationFailed` variants raised by
`RefreshTokenSerializer.validate_refresh_token`, plus the `User` lookup
failure of `serializers.py:54`. -/
inductive AuthError
  | tokenExpired
  | tokenDecodingError
  | authenticationFailed
  | tokenWrongTypeRefresh
  | userDoesNotExist
deriving DecidableEq

/-- The refresh endpoint (`RefreshTokenSerializer`,
`serializers.py:41-57`): map each decode failure to its
`AuthenticationFailed` message, reject a payload whose `type` is not
`REFRESH` with the wrong-token-type error, resolve the subject, and only
then issue a fresh ACCESS token for that subject (`get_access_token`).
`users` is the set of existing user ids. -/
def refreshAccessToken (users : List ℕ) (d : DecodeResult) :
    Except AuthError TokenPayload :=
  match d with
  | DecodeResult.expiredSignature => Except.error AuthError.tokenExpired
  | DecodeResult.decodeFailure => Except.error AuthError.tokenDecodingError
  | DecodeResult.invalidToken => Except.error AuthError.authenticationFailed
  | DecodeResult.ok p =>
    if p.type = TokenType.REFRESH then
      if p.id ∈ users then
        Except.ok { type := TokenType.ACCESS, id := p.id }
      else Except.error AuthError.userDoesNotExist
    else Except.error AuthError.tokenWrongTypeRefresh

/-- `ProductDetailSerializer.get_is_buy` (`serializers.py:232-235`):
`len(OrderItem.objects.filter(order__status=SUCCESS, order__user=c_user.id,
product=obj.id)) > 0`, a pure read of the store. -/
def get_is_buy (db : DB) (userId : ℕ) (pid : ℕ) : Bool :=
  decide (0 <
    (db.order_items.filter (fun it =>
      (db.orders.any (fun o =>
        (o.id == it.order) && decide (o.status = OrderStatus.SUCCESS) &&
          (o.user == userId))) &&
        (it.product == pid))).length)

/-- Python `int(...)` applied to an exact rational: truncation toward
zero (floor for a nonnegative value, ceiling for a negative one). -/
def pyInt (q : ℚ) : ℤ :=
  if 0 ≤ q then ⌊q⌋ else ⌈q⌉

/-- Round a scaled significand to the nearest integer, ties to even —
the rounding step of IEEE-754 round-to-nearest-even. -/
def roundHalfEven (s : ℚ) : ℤ :=
  if s - ⌊s⌋ < 1 / 2 then ⌊s⌋
  else if 1 / 2 < s - ⌊s⌋ then ⌊s⌋ + 1
  else if ⌊s⌋ % 2 = 0 then ⌊s⌋ else ⌊s⌋ + 1

/-- The IEEE-754 binary64 value nearest to an exact rational: the
significand is rounded to 53 bits (`roundHalfEven` at the value's binary
exponent). The exponent is unbounded — no overflow, infinity or
subnormal handling — which is exact for the magnitudes any realistic
price produces. -/
def fl (q : ℚ) : ℚ :=
  if q = 0 then 0
  else if 0 < q then
    (roundHalfEven (q * (2 : ℚ) ^ (52 - Int.log 2 q)) : ℚ) * (2 : ℚ) ^ (Int.log 2 q - 52)
  else
    -((roundHalfEven (-q * (2 : ℚ) ^ (52 - Int.log 2 (-q))) : ℚ) *
      (2 : ℚ) ^ (Int.log 2 (-q) - 52))

/-- `ProductSerializer.get_discount` and
`ProductDetailSerializer.get_discount` (identical bodies,
`serializers.py:184-185` and `229-230`):
`int(float((obj.price-obj.sale_price) / obj.price)*100)`. `none` models
the Python `ZeroDivisionError` raised when `price == 0`. The arithmetic
is double precision: the true division of the integer-valued price
columns is the correctly rounded binary64 quotient `fl ((p - s) / p)`
(`float(...)` is the identity on it), and the `* 100` product is again
rounded, before `int` truncates. -/
def get_discount (price : ℚ) (sale_price : ℚ) : Option ℤ :=
  if price = 0 then none
  else some (pyInt (fl (fl ((price - sale_price) / price) * 100)))

instance : DecidableEq (Except CreateError Order) := fun a b =>
  match a, b with
  | Except.ok x, Except.ok y => decidable_of_iff (x = y) (by simp)
  | Except.error x, Except.error y => decidable_of_iff (x = y) (by simp)
  | Except.ok _, Except.error _ => Decidable.isFalse (by simp)
  | Except.error _, Except.ok _ => Decidable.isFalse (by simp)

/-- Inserting the order header does not change the product table, so item
validation gives the same verdict before and after the header insert. -/
theorem validItem_dbAfterHeader (db : DB) (req : OrderRequest) (it : ReqItem) :
    validItem (dbAfterHeader db req) it = validItem db it := rfl

/-- Characterisation of a successful creation run: the response is the
recomputed header and the store gains exactly that header and the new
item rows. -/
theorem createOrder_ok (db : DB) (req : OrderRequest) (o : Order) (db2 : DB)
    (h : createOrder db req = (Except.ok o, db2)) :
    o = finalOrder db req ∧
      db2 = { products := db.products
              orders := db.orders ++ [finalOrder db req]
              order_items := db.order_items ++
                newOrderItems (dbAfterHeader db req) (orderHeader db req).id req.items } := by
  unfold createOrder at h
  by_cases hall : req.items.all (fun it => validItem db it) = true
  · have hall2 : req.items.all (fun it => validItem (dbAfterHeader db req) it) = true := by
      simpa [validItem_dbAfterHeader] using hall
    rw [if_pos hall, if_pos hall2] at h
    simp only [Prod.mk.injEq, Except.ok.injEq] at h
    exact ⟨h.1.symm, h.2.symm⟩
  · rw [if_neg hall] at h
    simp at h

/-- Claim C1: if validation of any line item fails (a bad quantity or a
dangling product reference) the whole creation fails and the store is
unchanged — no Order header and no OrderItem is persisted. The nested
`items` field is validated by `is_valid` before `create` runs, so the
header insert inside `create` is never reached on a validation failure. -/
theorem order_creation_failure_atomic (db : DB) (req : OrderRequest) (it : ReqItem)
    (hmem : it ∈ req.items) (hbad : validItem db it = false) :
    createOrder db req = (Except.error CreateError.validationError, db) := by
  have hall : req.items.all (fun x => validItem db x) = false := by
    rcases hcase : req.items.all (fun x => validItem db x) with _ | _
    · rfl
    · exact absurd (List.all_eq_true.mp hcase it hmem) (by simp [hbad])
  unfold createOrder
  simp [hall]

theorem order_creation_failure_atomic_witness :
    createOrder
        { products := [{ id := 1, price := 100, sale_price := 75 }]
          orders := []
          order_items := [] }
        { user := 2
          status := none
          sum_price := none
          shipping_fee := none
          total_cost := none
          items := [{ product := 1, count := 0, order_price := none }] }
      = (Except.error CreateError.validationError,
        { products := [{ id := 1, price := 100, sale_price := 75 }]
          orders := []
          order_items := [] }) :=
  order_creation_failure_atomic _ _ { product := 1, count := 0, order_price := none }
    (by decide) (by decide)

/-- The concrete store used by the creation witnesses: one product with
`price = 100` and `sale_price = 75`. -/
def dbW : DB :=
  { products := [{ id := 1, price := 100, sale_price := 75 }]
    orders := []
    order_items := [] }

/-- A valid creation request against `dbW`: two units of product 1, with
a client-submitted `order_price` of 999 that must be ignored. -/
def reqW : OrderRequest :=
  { user := 2
    status := none
    sum_price := none
    shipping_fee := none
    total_cost := none
    items := [{ product := 1, count := 2, order_price := some 999 }] }

/-- The order `createOrder dbW reqW` persists:
`sum_price = 75 * 2 = 150`, `total_cost = 150 + 20 = 170`. -/
def orderW : Order :=
  { id := 0
    user := 2
    status := OrderStatus.WAITING_CONFIRM
    sum_price := 150
    shipping_fee := 20
    total_cost := 170 }

/-- The store `createOrder dbW reqW` leaves behind. -/
def dbW2 : DB :=
  { products := [{ id := 1, price := 100, sale_price := 75 }]
    orders := [orderW]
    order_items := [{ order := 0, product := 1, count := 2, order_price := 75 }] }

/-- Claim C2: for every created order, `total_cost` equals
`sum_price + shipping_fee`, and `shipping_fee` is the fixed configured
constant. -/
theorem total_cost_eq_sum_price_add_shipping_fee
    (db : DB) (req : OrderRequest) (o : Order) (db2 : DB)
    (h : createOrder db req = (Except.ok o, db2)) :
    o.total_cost = o.sum_price + o.shipping_fee ∧ o.shipping_fee = SHIPPING_FEE := by
  obtain ⟨rfl, -⟩ := createOrder_ok db req o db2 h
  exact ⟨rfl, rfl⟩

theorem total_cost_eq_sum_price_add_shipping_fee_witness :
    orderW.total_cost = orderW.sum_price + orderW.shipping_fee ∧
      orderW.shipping_fee = SHIPPING_FEE :=
  total_cost_eq_sum_price_add_shipping_fee dbW reqW orderW dbW2
    (by norm_num [createOrder, dbW, reqW, orderW, dbW2, validItem, findProduct, dbAfterHeader,
      orderHeader, nextOrderId, finalOrder, computedSum, saleOf, newOrderItems, SHIPPING_FEE])

/-- Claim C3: the created order's `sum_price` is the sum, over the
submitted line items, of the referenced product's current `sale_price`
times the item's count — a function of the product table alone, never of
any client-submitted price. -/
theorem sum_price_eq_item_total (db : DB) (req : OrderRequest) (o : Order) (db2 : DB)
    (h : createOrder db req = (Except.ok o, db2)) :
    o.sum_price = (req.items.map (fun e => saleOf db e.product * (e.count : ℚ))).sum := by
  obtain ⟨rfl, -⟩ := createOrder_ok db req o db2 h
  rfl

theorem sum_price_eq_item_total_witness :
    orderW.sum_price = (reqW.items.map (fun e => saleOf dbW e.product * (e.count : ℚ))).sum ∧
      orderW.sum_price = 150 :=
  ⟨sum_price_eq_item_total dbW reqW orderW dbW2
      (by norm_num [createOrder, dbW, reqW, orderW, dbW2, validItem, findProduct, dbAfterHeader,
        orderHeader, nextOrderId, finalOrder, computedSum, saleOf, newOrderItems, SHIPPING_FEE]),
    by norm_num [orderW]⟩

/-- Claim C4: for an order that resolves, cancellation succeeds exactly
when its current status is `WAITING_CONFIRM`, in which case the persisted
status becomes `CANCEL`; in every other status (a second cancellation
included) it fails with the client-facing `ClientException` and the store
— the order's status and every other field — is left unchanged. -/
theorem cancel_succeeds_iff_waiting_confirm (db : DB) (oid : ℕ) (o : Order)
    (hfind : db.orders.find? (fun x => x.id == oid) = some o) :
    (o.status = OrderStatus.WAITING_CONFIRM →
        cancelOrder db oid =
          (Except.ok { o with status := OrderStatus.CANCEL },
            { db with orders := db.orders.map (fun x =>
                if x.id == oid then { o with status := OrderStatus.CANCEL } else x) })) ∧
      (o.status ≠ OrderStatus.WAITING_CONFIRM →
        cancelOrder db oid = (Except.error CancelError.clientException, db)) := by
  constructor
  · intro hw
    simp [cancelOrder, hfind, hw]
  · intro hn
    simp [cancelOrder, hfind, hn]

/-- An already cancelled order, the concrete input of the cancellation
witness: a second cancellation must fail and change nothing. -/
def orderC4 : Order :=
  { id := 5
    user := 2
    status := OrderStatus.CANCEL
    sum_price := 150
    shipping_fee := 20
    total_cost := 170 }

/-- The store holding `orderC4`. -/
def dbC4 : DB :=
  { products := []
    orders := [orderC4]
    order_items := [] }

theorem cancel_succeeds_iff_waiting_confirm_witness :
    (orderC4.status = OrderStatus.WAITING_CONFIRM →
        cancelOrder dbC4 5 =
          (Except.ok { orderC4 with status := OrderStatus.CANCEL },
            { dbC4 with orders := dbC4.orders.map (fun x =>
                if x.id == 5 then { orderC4 with status := OrderStatus.CANCEL } else x) })) ∧
      (orderC4.status ≠ OrderStatus.WAITING_CONFIRM →
        cancelOrder dbC4 5 = (Except.error CancelError.clientException, dbC4)) :=
  cancel_succeeds_iff_waiting_confirm dbC4 5 orderC4 (by decide)

/-- Claim C5: every OrderItem row written by an order creation carries
`order_price` equal to the referenced product's current `sale_price` in
the store at creation time, never a client-submitted value. -/
theorem order_price_from_sale_price (db : DB) (req : OrderRequest) (o : Order) (db2 : DB)
    (h : createOrder db req = (Except.ok o, db2))
    (it : OrderItem) (hit : it ∈ db2.order_items) (hnotold : it ∉ db.order_items) :
    it.order_price = saleOf db it.product := by
  obtain ⟨-, rfl⟩ := createOrder_ok db req o db2 h
  rcases List.mem_append.mp hit with hmem | hmem
  · exact absurd hmem hnotold
  · simp only [newOrderItems, List.mem_map] at hmem
    obtain ⟨e, -, rfl⟩ := hmem
    rfl

theorem order_price_from_sale_price_witness :
    ({ order := 0, product := 1, count := 2, order_price := 75 } : OrderItem).order_price
        = saleOf dbW ({ order := 0, product := 1, count := 2, order_price := 75 } : OrderItem).product ∧
      (reqW.items.map ReqItem.order_price = [some 999] ∧ saleOf dbW 1 = 75) :=
  ⟨order_price_from_sale_price dbW reqW orderW dbW2
      (by norm_num [createOrder, dbW, reqW, orderW, dbW2, validItem, findProduct, dbAfterHeader,
        orderHeader, nextOrderId, finalOrder, computedSum, saleOf, newOrderItems, SHIPPING_FEE])
      { order := 0, product := 1, count := 2, order_price := 75 }
      (by decide) (by decide),
    by constructor
       · rfl
       · norm_num [saleOf, findProduct, dbW]⟩

/-- The binary exponent of a positive rational, pinned by explicit
power-of-two bounds. -/
theorem log2_eq_of_bounds (q : ℚ) (e : ℤ) (h0 : 0 < q)
    (h1 : (2 : ℚ) ^ e ≤ q) (h2 : q < (2 : ℚ) ^ (e + 1)) :
    Int.log 2 q = e := by
  have hle : e ≤ Int.log 2 q :=
    (Int.zpow_le_iff_le_log one_lt_two h0).mp (by exact_mod_cast h1)
  have hlt : Int.log 2 q < e + 1 :=
    (Int.lt_zpow_iff_log_lt one_lt_two h0).mp (by exact_mod_cast h2)
  omega

/-- Evaluation rule for `fl` at a positive rational whose binary exponent
and rounded significand are given explicitly. -/
theorem fl_eval (q : ℚ) (e m : ℤ) (h0 : 0 < q)
    (h1 : (2 : ℚ) ^ e ≤ q) (h2 : q < (2 : ℚ) ^ (e + 1))
    (h3 : roundHalfEven (q * (2 : ℚ) ^ (52 - e)) = m) :
    fl q = m * (2 : ℚ) ^ (e - 52) := by
  unfold fl
  rw [log2_eq_of_bounds q e h0 h1 h2, if_neg h0.ne', if_pos h0, h3]

/-- Claim C6, counterexample: at `price = 3`, `sale_price = 1` the code
yields `int(float(2/3)*100) = 66` (the double nearest `2/3` times 100
rounds to `66.66666666666666`) while `round((2/3)*100) = 67`, so the
shown discount is not `round((price - sale_price) / price * 100)`. -/
theorem discount_round_counterexample :
    get_discount 3 1 = some 66 ∧ round (((3 : ℚ) - 1) / 3 * 100) = 67 ∧
      get_discount 3 1 ≠ some (round (((3 : ℚ) - 1) / 3 * 100)) := by
  have hfl1 : fl ((3 - 1 : ℚ) / 3) = 6004799503160661 / 9007199254740992 := by
    rw [fl_eval ((3 - 1 : ℚ) / 3) (-1) 6004799503160661 (by norm_num) (by norm_num)
      (by norm_num) (by norm_num [roundHalfEven])]
    norm_num
  have hfl2 : fl ((6004799503160661 / 9007199254740992 : ℚ) * 100)
      = 4691249611844266 / 70368744177664 := by
    rw [fl_eval ((6004799503160661 / 9007199254740992 : ℚ) * 100) 6 4691249611844266
      (by norm_num) (by norm_num) (by norm_num) (by norm_num [roundHalfEven])]
    norm_num
  have h1 : get_discount 3 1 = some 66 := by
    simp only [get_discount]
    rw [if_neg (by norm_num), hfl1, hfl2]
    norm_num [pyInt]
  have h2 : round (((3 : ℚ) - 1) / 3 * 100) = 67 := by norm_num [round_eq]
  refine ⟨h1, h2, ?_⟩
  rw [h1, h2]
  decide

/-- Claim C6 as amended: the displayed discount is
`int(float((price - sale_price) / price) * 100)` evaluated in IEEE-754
double precision — the truncation of the rounded float product, which is
neither `round` of the exact ratio nor even its exact truncation. The
worked example `price = 100`, `sale_price = 75` still yields 25 (both
float steps are exact there), but `price = 100`, `sale_price = 71`
yields 28, one below the exact truncation `⌊29⌋ = 29`, because
`float(29/100) * 100 = 28.999999999999996`. -/
theorem discount_float_truncates :
    get_discount 100 75 = some 25 ∧
      get_discount 100 71 = some 28 ∧
      ⌊((100 : ℚ) - 71) / 100 * 100⌋ = 29 ∧
      get_discount 100 71 ≠ some ⌊((100 : ℚ) - 71) / 100 * 100⌋ := by
  have ha1 : fl ((100 - 75 : ℚ) / 100) = 1 / 4 := by
    rw [fl_eval ((100 - 75 : ℚ) / 100) (-2) 4503599627370496 (by norm_num) (by norm_num)
      (by norm_num) (by norm_num [roundHalfEven])]
    norm_num
  have ha2 : fl ((1 / 4 : ℚ) * 100) = 25 := by
    rw [fl_eval ((1 / 4 : ℚ) * 100) 4 7036874417766400 (by norm_num) (by norm_num)
      (by norm_num) (by norm_num [roundHalfEven])]
    norm_num
  have hb1 : fl ((100 - 71 : ℚ) / 100) = 5224175567749775 / 18014398509481984 := by
    rw [fl_eval ((100 - 71 : ℚ) / 100) (-2) 5224175567749775 (by norm_num) (by norm_num)
      (by norm_num) (by norm_num [roundHalfEven])]
    norm_num
  have hb2 : fl ((5224175567749775 / 18014398509481984 : ℚ) * 100)
      = 8162774324609023 / 281474976710656 := by
    rw [fl_eval ((5224175567749775 / 18014398509481984 : ℚ) * 100) 4 8162774324609023
      (by norm_num) (by norm_num) (by norm_num) (by norm_num [roundHalfEven])]
    norm_num
  have h25 : get_discount 100 75 = some 25 := by
    simp only [get_discount]
    rw [if_neg (by norm_num), ha1, ha2]
    norm_num [pyInt]
  have h28 : get_discount 100 71 = some 28 := by
    simp only [get_discount]
    rw [if_neg (by norm_num), hb1, hb2]
    norm_num [pyInt]
  have h29 : ⌊((100 : ℚ) - 71) / 100 * 100⌋ = 29 := by norm_num
  refine ⟨h25, h28, h29, ?_⟩
  rw [h28, h29]
  decide

/-- The status carried by the response of a creation run, when it
succeeded. -/
def statusOfResult (r : Except CreateError Order × DB) : Option OrderStatus :=
  match r.1 with
  | Except.ok o => some o.status
  | Except.error _ => none

/-- Claim C7, counterexample: `UserOrderCreateSerializer` exposes
`status` (`fields = __all__`) and `create` passes the validated data
straight to `Order.objects.create`, so a request that submits
`status = SUCCESS` produces an order whose status is `SUCCESS`, not
`WAITING_CONFIRM`. -/
theorem created_status_counterexample :
    statusOfResult (createOrder
        { products := [{ id := 1, price := 100, sale_price := 75 }]
          orders := []
          order_items := [] }
        { user := 2
          status := some OrderStatus.SUCCESS
          sum_price := none
          shipping_fee := none
          total_cost := none
          items := [{ product := 1, count := 1, order_price := none }] })
      = some OrderStatus.SUCCESS ∧
      OrderStatus.SUCCESS ≠ OrderStatus.WAITING_CONFIRM :=
  ⟨rfl, by decide⟩

/-- Claim C7 as amended: every order created from a request that does not
submit a `status` value starts in `WAITING_CONFIRM` (the model default);
a client-submitted status is passed through. -/
theorem default_status_waiting_confirm (db : DB) (req : OrderRequest) (o : Order) (db2 : DB)
    (hs : req.status = none) (h : createOrder db req = (Except.ok o, db2)) :
    o.status = OrderStatus.WAITING_CONFIRM := by
  obtain ⟨rfl, -⟩ := createOrder_ok db req o db2 h
  simp [finalOrder, orderHeader, hs]

theorem default_status_waiting_confirm_witness :
    orderW.status = OrderStatus.WAITING_CONFIRM :=
  default_status_waiting_confirm dbW reqW orderW dbW2 (by decide)
    (by norm_num [createOrder, dbW, reqW, orderW, dbW2, validItem, findProduct, dbAfterHeader,
      orderHeader, nextOrderId, finalOrder, computedSum, saleOf, newOrderItems, SHIPPING_FEE])

/-- Claim C8: a syntactically valid token whose payload `type` is not
REFRESH — an ACCESS token, in particular — is rejected by the refresh
endpoint with the wrong-token-type authentication error, and no access
token is issued. -/
theorem refresh_rejects_wrong_token_type (users : List ℕ) (p : TokenPayload)
    (h : p.type ≠ TokenType.REFRESH) :
    refreshAccessToken users (DecodeResult.ok p)
      = Except.error AuthError.tokenWrongTypeRefresh := by
  simp [refreshAccessToken, h]

theorem refresh_rejects_wrong_token_type_witness :
    refreshAccessToken [3] (DecodeResult.ok { type := TokenType.ACCESS, id := 3 })
      = Except.error AuthError.tokenWrongTypeRefresh :=
  refresh_rejects_wrong_token_type [3] { type := TokenType.ACCESS, id := 3 } (by decide)

/-- Claim C9: the purchase check is true exactly when some OrderItem row
references the product and belongs to an order owned by the requesting
user whose status is SUCCESS; being a pure function of the store, it has
no side effects. -/
theorem is_buy_iff_success_order_item (db : DB) (u : ℕ) (pid : ℕ) :
    get_is_buy db u pid = true ↔
      ∃ it ∈ db.order_items, it.product = pid ∧
        ∃ o ∈ db.orders, o.id = it.order ∧ o.user = u ∧
          o.status = OrderStatus.SUCCESS := by
  rw [get_is_buy, decide_eq_true_eq, List.length_pos_iff_exists_mem]
  simp only [List.mem_filter, Bool.and_eq_true, List.any_eq_true, beq_iff_eq,
    decide_eq_true_eq]
  constructor
  · rintro ⟨it, hmem, ⟨o, ho, ⟨hoid, hstat⟩, huser⟩, hprod⟩
    exact ⟨it, hmem, hprod, o, ho, hoid, huser, hstat⟩
  · rintro ⟨it, hmem, hprod, o, ho, hoid, huser, hstat⟩
    exact ⟨it, hmem, ⟨o, ho, ⟨hoid, hstat⟩, huser⟩, hprod⟩

/-- Claim C10: the discount computation guards nothing: it is defined
exactly for products with nonzero price, and at `price = 0` evaluation
fails (`ZeroDivisionError`, modelled as `none`). -/
theorem discount_none_iff_zero_price (p s : ℚ) :
    ((get_discount p s).isSome ↔ p ≠ 0) ∧ get_discount 0 s = none := by
  constructor
  · rcases eq_or_ne p 0 with h | h <;> simp [get_discount, h]
  · simp [get_discount]

end Multishop
